import Mathlib

/-!
Shallow embedding of the permission-resolution and token-lifecycle core of the
`mvp-clean-api-drf-react` backend (directory `src/nexus/services/backend`).

Files embedded:
* `apps/core/permissions.py`    — cached permission lookup and the DRF
  permission class `HasPermission`.
* `apps/users/infraestructure/cache.py` — `UserPermissionCache` (cache-aside).
* `apps/users/application/services.py`  — `UserService` and
  `UserPermissionService` (create/update/delete, role assignment).
* `apps/auth/application/services.py`   — `AuthService` (login, refresh,
  logout) on top of `rest_framework_simplejwt` token semantics.
* `apps/core/models.py`         — `SoftDeleteModel.delete` (deleted_at marker).
* `config/settings/base.py`     — the `SIMPLE_JWT` policy values.

External collaborators are embedded by their documented behaviour, which the
source relies on:
* Django `django.contrib.auth.authenticate` with the default `ModelBackend`
  (the settings do not override `AUTHENTICATION_BACKENDS`): it returns `None`
  when the username is unknown, when the password hash does not match, or when
  `user_can_authenticate` fails because `is_active` is false.
* Django `User.get_all_permissions` via `ModelBackend`: the empty set for an
  inactive user, every defined permission for an active superuser, and
  otherwise direct grants plus the grants of the groups the user belongs to.
* `rest_framework_simplejwt` token construction: decoding rejects a malformed,
  badly signed or expired token with the message "Token is invalid or
  expired"; with the `token_blacklist` app installed (it is, see
  `INSTALLED_APPS`), verification then rejects a blacklisted refresh token
  with the message "Token is blacklisted".

Timestamps are natural numbers (Unix seconds), the password hasher is an
injective tagging function, and the Redis cache is an association list from
string keys to permission lists.  Cache TTLs (3600 s on permission entries)
are not modelled: no claim below depends on TTL expiry, only on the presence
or absence of an entry.
-/

namespace Nexus

/-- Permission codename such as `"auth.view_user"` (Django `app_label.codename`). -/
abbrev Perm := String

/-- Django `auth.Group`: a role, i.e. a named bundle of permissions. -/
structure Group where
  id : Nat
  name : String
  permissions : List Perm
  deriving Repr, DecidableEq

/-- Django `auth.User` record (the fields the embedded core reads). -/
structure User where
  id : Nat
  username : String
  password : String
  is_active : Bool
  is_superuser : Bool
  groups : List Nat
  user_permissions : List Perm
  last_login : Option Nat
  deriving Repr, DecidableEq

/-- `apps/users/domain/models.py` `UserProfile`: one-to-one extension of a user
with the `SoftDeleteModel` marker `deleted_at`. -/
structure Profile where
  user_id : Nat
  deleted_at : Option Nat
  deriving Repr, DecidableEq

/-- The identity store: user, group, profile and permission tables. -/
structure Db where
  users : List User
  groups : List Group
  profiles : List Profile
  all_perms : List Perm
  deriving Repr, DecidableEq

/-- Django `User.objects.get(id=...)` / queryset lookup by primary key. -/
def Db.find_user (db : Db) (user_id : Nat) : Option User :=
  db.users.find? (fun u => u.id == user_id)

/-- Persisting a mutated user record (`user.save()`): replace the row with the
same primary key. -/
def Db.save_user (db : Db) (u : User) : Db :=
  { db with users := db.users.map (fun v => if v.id == u.id then u else v) }

/-- Django password hashing (`make_password`), modelled as an injective
tagging of the raw password. -/
def make_password (raw : String) : String :=
  "pbkdf2_sha256$" ++ raw

/-- Django `check_password`: does the raw password verify against the stored
hash? -/
def check_password (raw hashed : String) : Bool :=
  hashed == make_password raw

/-- Django `User.get_all_permissions()` under the default `ModelBackend`:
empty for an inactive user, every defined permission for a superuser, and
otherwise direct grants united with the grants of all groups the user belongs
to. -/
def get_all_permissions (db : Db) (u : User) : List Perm :=
  if !u.is_active then []
  else if u.is_superuser then db.all_perms
  else u.user_permissions ++
    (db.groups.filter (fun g => u.groups.contains g.id)).flatMap Group.permissions

/-! ### The Redis key/value cache (django.core.cache) -/

/-- The shared key/value cache: an association list from string keys to the
stored permission lists. -/
abbrev Cache := List (String × List Perm)

/-- Cache read (`cache.get(key)`): `none` is a miss. -/
def cache_get (c : Cache) (k : String) : Option (List Perm) :=
  (c.find? (fun e => e.fst == k)).map Prod.snd

/-- Cache write (`cache.set(key, value, timeout)`), replacing any previous
entry under the key. -/
def cache_set (c : Cache) (k : String) (v : List Perm) : Cache :=
  (k, v) :: c.filter (fun e => e.fst != k)

/-- Cache invalidation (`cache.delete(key)`): removes the entry
unconditionally. -/
def cache_delete (c : Cache) (k : String) : Cache :=
  c.filter (fun e => e.fst != k)

/-- `UserPermissionCache._make_key` / the key used throughout:
`"user_permissions:{user_id}"`. -/
def make_key (user_id : Nat) : String :=
  "user_permissions:" ++ toString user_id

/-! ### apps/users/infraestructure/cache.py -/

/-- `UserPermissionCache.get_or_compute`: cache-aside resolution of a user id
to its permission set.  On a hit the cached value is returned unchanged; on a
miss the set is recomputed from the identity store and written back; when the
user id does not exist the empty set is returned and nothing is cached (the
`User.DoesNotExist` branch logs a warning and returns `set()`). -/
def get_or_compute (db : Db) (c : Cache) (user_id : Nat) : List Perm × Cache :=
  match cache_get c (make_key user_id) with
  | some perms => (perms, c)
  | none =>
    match db.find_user user_id with
    | some u =>
      let perms := get_all_permissions db u
      (perms, cache_set c (make_key user_id) perms)
    | none => ([], c)

/-! ### apps/core/permissions.py -/

/-- `get_user_permissions_cached(user)`: the empty set for a null or
unauthenticated user (`none` stands for both), otherwise the cached permission
set for `user.id`, recomputed from the user record and written back on a
miss. -/
def get_user_permissions_cached (db : Db) (c : Cache) (user : Option User) :
    List Perm × Cache :=
  match user with
  | none => ([], c)
  | some u =>
    match cache_get c (make_key u.id) with
    | some perms => (perms, c)
    | none =>
      let perms := get_all_permissions db u
      (perms, cache_set c (make_key u.id) perms)

/-- `has_permission(user, codename)`: membership of a codename in the cached
permission set. -/
def has_permission (db : Db) (c : Cache) (user : Option User) (codename : Perm) :
    Bool × Cache :=
  let r := get_user_permissions_cached db c user
  (r.fst.contains codename, r.snd)

/-- Value of one entry of a view's `required_permissions` dict: the code
accepts either a single codename string or a list of codenames. -/
inductive ActionPerms where
  | str (s : Perm)
  | list (l : List Perm)
  deriving Repr, DecidableEq

/-- Normalisation performed by `HasPermission.has_permission`: a bare string is
wrapped into a one-element list. -/
def ActionPerms.toList : ActionPerms → List Perm
  | .str s => [s]
  | .list l => l

/-- A DRF view as seen by `HasPermission`: its `required_permissions` dict
(action name to required permissions) and the current `action` attribute. -/
structure View where
  required_permissions : List (String × ActionPerms)
  action : Option String
  deriving Repr, DecidableEq

/-- `HasPermission.has_permission(request, view)`: deny a null or anonymous
user; allow a superuser unconditionally; allow when the view declares no entry
for the current action (or the action is unset); otherwise allow exactly when
every required codename is in the cached permission set.  Returns the decision
together with the cache as left behind by the lookup. -/
def HasPermission.has_permission (db : Db) (c : Cache) (request_user : Option User)
    (view : View) : Bool × Cache :=
  match request_user with
  | none => (false, c)
  | some u =>
    if u.is_superuser then (true, c)
    else
      match view.action with
      | none => (true, c)
      | some act =>
        match view.required_permissions.find? (fun e => e.fst == act) with
        | none => (true, c)
        | some entry =>
          let r := get_user_permissions_cached db c (some u)
          (entry.snd.toList.all (fun p => r.fst.contains p), r.snd)

/-! ### Error taxonomy of the service layer

The services raise DRF / simplejwt exception classes; the transport maps each
class to a status code.  The class is the failure kind, the constructor
argument is the human-readable detail message. -/

/-- Exceptions raised by the embedded services: DRF `AuthenticationFailed`,
DRF `ValidationError`, DRF `PermissionDenied` and Django `DoesNotExist`. -/
inductive ApiError where
  | authenticationFailed (detail : String)
  | validationError (detail : String)
  | permissionDenied (detail : String)
  | doesNotExist
  deriving Repr, DecidableEq

/-- Name of the exception class an error belongs to: this is all the failure
kind the transport layer can dispatch on. -/
def ApiError.kindName : ApiError → String
  | .authenticationFailed _ => "AuthenticationFailed"
  | .validationError _ => "ValidationError"
  | .permissionDenied _ => "PermissionDenied"
  | .doesNotExist => "DoesNotExist"

/-- Kind of the error carried by a failed computation, `none` on success. -/
def errorKind {α : Type} : Except ApiError α → Option String
  | .error e => some e.kindName
  | .ok _ => none

/-! ### config/settings/base.py — SIMPLE_JWT policy values -/

/-- `ACCESS_TOKEN_LIFETIME` (2 minutes), in seconds. -/
def ACCESS_TOKEN_LIFETIME : Nat := 120

/-- `REFRESH_TOKEN_LIFETIME` (5 minutes), in seconds. -/
def REFRESH_TOKEN_LIFETIME : Nat := 300

/-- `ROTATE_REFRESH_TOKENS` from `SIMPLE_JWT`: rotation is enabled in the
configuration. -/
def ROTATE_REFRESH_TOKENS : Bool := true

/-- `BLACKLIST_AFTER_ROTATION` from `SIMPLE_JWT`. -/
def BLACKLIST_AFTER_ROTATION : Bool := true

/-! ### rest_framework_simplejwt token semantics -/

/-- Payload of a well-formed signed refresh token: subject user id, unique
token id (`jti`) and expiry instant. -/
structure Token where
  user_id : Nat
  jti : Nat
  exp : Nat
  deriving Repr, DecidableEq

/-- A refresh-token string presented by a client: either a token correctly
signed by the server, or garbage (malformed, tampered or foreign-signed). -/
inductive Presented where
  | signed (t : Token)
  | malformed
  deriving Repr, DecidableEq

/-- State of the token subsystem: the blacklist (revocation set of `jti`s of
the installed `token_blacklist` app) and the current time. -/
structure AuthState where
  blacklist : List Nat
  now : Nat
  deriving Repr, DecidableEq

/-- simplejwt `RefreshToken(token)` construction: decoding rejects a malformed
or expired token (`exp <= now`, no grace window) with "Token is invalid or
expired"; verification then rejects a blacklisted token with "Token is
blacklisted".  On success the payload is returned.  The error string is the
`TokenError` detail. -/
def refresh_token_init (st : AuthState) (tok : Presented) : Except String Token :=
  match tok with
  | .malformed => .error "Token is invalid or expired"
  | .signed t =>
    if t.exp ≤ st.now then .error "Token is invalid or expired"
    else if st.blacklist.contains t.jti then .error "Token is blacklisted"
    else .ok t

/-- Access-token payload (stateless, never stored). -/
structure AccessToken where
  user_id : Nat
  exp : Nat
  deriving Repr, DecidableEq

/-- simplejwt `refresh.access_token`: a fresh access token for the same user,
expiring `ACCESS_TOKEN_LIFETIME` from now. -/
def access_token_for (st : AuthState) (t : Token) : AccessToken :=
  { user_id := t.user_id, exp := st.now + ACCESS_TOKEN_LIFETIME }

/-- simplejwt `RefreshToken.for_user(user)`: a fresh refresh token for the
user, carrying a fresh unique `jti` (supplied by the caller here) and expiring
`REFRESH_TOKEN_LIFETIME` from now. -/
def RefreshToken.for_user (st : AuthState) (fresh_jti : Nat) (u : User) : Token :=
  { user_id := u.id, jti := fresh_jti, exp := st.now + REFRESH_TOKEN_LIFETIME }

/-! ### Django authenticate (default ModelBackend) -/

/-- Django `authenticate(username=..., password=...)` with the default
`ModelBackend`: `none` when the username matches no user, when the password
does not verify against the stored hash, or when `user_can_authenticate`
fails because the account is inactive.  (For an unknown username the backend
still runs the hasher once, for timing uniformity; that has no functional
effect.) -/
def authenticate (db : Db) (username password : String) : Option User :=
  match db.users.find? (fun u => u.username == username) with
  | none => none
  | some u =>
    if check_password password u.password && u.is_active then some u else none

/-! ### apps/auth/application/services.py — AuthService -/

/-- Response of a successful `AuthService.login`: the dict
`{access, refresh, user}`. -/
structure LoginResponse where
  access : AccessToken
  refresh : Token
  user_id : Nat
  deriving Repr, DecidableEq

/-- `AuthService.login(username, password)`: authenticate via Django; `None`
becomes `AuthenticationFailed("Credenciales inválidas")`; an inactive user
becomes `AuthenticationFailed("Usuario inactivo")`; on success a token pair is
minted and `last_login` is persisted. -/
def AuthService.login (db : Db) (st : AuthState) (fresh_jti : Nat)
    (username password : String) : Except ApiError LoginResponse × Db :=
  match authenticate db username password with
  | none => (.error (.authenticationFailed "Credenciales inválidas"), db)
  | some u =>
    if !u.is_active then (.error (.authenticationFailed "Usuario inactivo"), db)
    else
      let refresh := RefreshToken.for_user st fresh_jti u
      let db1 := db.save_user { u with last_login := some st.now }
      (.ok { access := access_token_for st refresh, refresh := refresh,
             user_id := u.id }, db1)

/-- `AuthService.refresh_token(refresh_token)`: build the simplejwt
`RefreshToken` (signature, expiry and blacklist checks), return the dict
`{'access': str(refresh.access_token)}`, and wrap any `TokenError` into
`ValidationError("Token inválido: ...")`.  The method touches no state: it
neither blacklists the presented token nor mints a replacement refresh token,
and the returned dict has the single key `"access"`. -/
def AuthService.refresh_token (st : AuthState) (tok : Presented) :
    Except ApiError (List (String × AccessToken)) × AuthState :=
  match refresh_token_init st tok with
  | .ok t => (.ok [("access", access_token_for st t)], st)
  | .error e => (.error (.validationError ("Token inválido: " ++ e)), st)

/-- `AuthService.logout(refresh_token)`: build the simplejwt `RefreshToken`
and insert its `jti` into the blacklist (`token.blacklist()`); a `TokenError`
becomes `ValidationError("Token inválido: ...")`.  The `token_blacklist` app
is installed, so the `AttributeError` branch for a missing blacklist is
unreachable and not modelled. -/
def AuthService.logout (st : AuthState) (tok : Presented) :
    Except ApiError Unit × AuthState :=
  match refresh_token_init st tok with
  | .ok t => (.ok (), { st with blacklist := t.jti :: st.blacklist })
  | .error e => (.error (.validationError ("Token inválido: " ++ e)), st)

/-! ### apps/users/application/services.py -/

/-- The `require_permission(codename)` decorator applied to a service method:
look up the acting user's cached permission set and raise `PermissionDenied`
when the codename is missing.  Returns the cache as left behind by the
lookup. -/
def require_permission_check (db : Db) (c : Cache) (self_user : User)
    (codename : Perm) : Except ApiError Unit × Cache :=
  match has_permission db c (some self_user) codename with
  | (true, c1) => (.ok (), c1)
  | (false, c1) => (.error (.permissionDenied ("No tienes permiso: " ++ codename)), c1)

/-- Validated payload of `UserUpdateSerializer` (the fields the service layer
inspects): `none` models a key absent from `validated_data`. -/
structure UpdateData where
  is_active : Option Bool
  group_ids : Option (List Nat)
  deriving Repr, DecidableEq

/-- `UserService.update_user(user_instance, validated_data)`: after the
`require_permission('auth.change_user')` decorator, reject self-deactivation
(`is_active` present and falsy on the acting user's own record) and
self-demotion (a `group_ids` value that drops the `Administradores` group the
acting user currently holds); otherwise pass the payload through for the
serializer to apply.  The method itself mutates nothing. -/
def UserService.update_user (db : Db) (c : Cache) (self_user target : User)
    (validated_data : UpdateData) : Except ApiError UpdateData × Cache :=
  match require_permission_check db c self_user "auth.change_user" with
  | (.error e, c1) => (.error e, c1)
  | (.ok _, c1) =>
    if target.id == self_user.id && validated_data.is_active == some false then
      (.error (.permissionDenied "No puedes desactivar tu propia cuenta"), c1)
    else if target.id == self_user.id && validated_data.group_ids.isSome then
      match validated_data.group_ids with
      | some new_groups =>
        match db.groups.find? (fun g => g.name == "Administradores") with
        | some admin_group =>
          if target.groups.contains admin_group.id &&
              !new_groups.contains admin_group.id then
            (.error (.permissionDenied "No puedes remover tu propio rol de Administrador"), c1)
          else (.ok validated_data, c1)
        | none => (.ok validated_data, c1)
      | none => (.ok validated_data, c1)
    else (.ok validated_data, c1)

/-- `UserService.delete_user(user_instance)`: after the
`require_permission('auth.delete_user')` decorator, reject self-deletion;
otherwise soft-delete: set `is_active = False` and save, soft-delete the
profile if one exists (`SoftDeleteModel.delete` stamps `deleted_at = now`),
and invalidate the permission-cache entry of the target.  The user row is
never removed from the store. -/
def UserService.delete_user (db : Db) (c : Cache) (now : Nat)
    (self_user target : User) : Except ApiError Unit × Db × Cache :=
  match require_permission_check db c self_user "auth.delete_user" with
  | (.error e, c1) => (.error e, db, c1)
  | (.ok _, c1) =>
    if target.id == self_user.id then
      (.error (.permissionDenied "No puedes eliminar tu propia cuenta"), db, c1)
    else
      let db1 := db.save_user { target with is_active := false }
      let db2 := { db1 with
        profiles := db1.profiles.map (fun p =>
          if p.user_id == target.id then { p with deleted_at := some now } else p) }
      (.ok (), db2, cache_delete c1 (make_key target.id))

/-- `UserService.create_user(validated_data)`: after the
`require_permission('auth.add_user')` decorator, fail with a
`ValidationError` quota message when the number of active users is at or
above the hardwired plan ceiling `max_users = 10`; otherwise return the
payload for the serializer to persist. -/
def UserService.create_user (db : Db) (c : Cache) (self_user : User)
    (validated_data : User) : Except ApiError User × Cache :=
  match require_permission_check db c self_user "auth.add_user" with
  | (.error e, c1) => (.error e, c1)
  | (.ok _, c1) =>
    let max_users := 10
    let active_users := (db.users.filter (fun u => u.is_active)).length
    if active_users ≥ max_users then
      (.error (.validationError
        ("Límite de usuarios alcanzado (" ++ toString max_users ++
          "). Contacta soporte para ampliar tu plan.")), c1)
    else (.ok validated_data, c1)

/-- `UserPermissionService.assign_role(user_instance, group_id)`: after the
`require_permission('auth.change_user')` decorator, fetch the group
(`DoesNotExist` when absent), add it to the target's memberships
(`groups.add` is idempotent) and invalidate the target's cache entry before
returning. -/
def UserPermissionService.assign_role (db : Db) (c : Cache) (self_user target : User)
    (group_id : Nat) : Except ApiError Unit × Db × Cache :=
  match require_permission_check db c self_user "auth.change_user" with
  | (.error e, c1) => (.error e, db, c1)
  | (.ok _, c1) =>
    match db.groups.find? (fun g => g.id == group_id) with
    | none => (.error .doesNotExist, db, c1)
    | some g =>
      let target1 := { target with
        groups := if target.groups.contains g.id then target.groups
                  else target.groups ++ [g.id] }
      (.ok (), db.save_user target1, cache_delete c1 (make_key target.id))

/-- `UserPermissionService.remove_role(user_instance, group_id)`: after the
`require_permission('auth.change_user')` decorator, fetch the group
(`DoesNotExist` when absent), remove it from the target's memberships and
invalidate the target's cache entry before returning. -/
def UserPermissionService.remove_role (db : Db) (c : Cache) (self_user target : User)
    (group_id : Nat) : Except ApiError Unit × Db × Cache :=
  match require_permission_check db c self_user "auth.change_user" with
  | (.error e, c1) => (.error e, db, c1)
  | (.ok _, c1) =>
    match db.groups.find? (fun g => g.id == group_id) with
    | none => (.error .doesNotExist, db, c1)
    | some g =>
      let target1 := { target with
        groups := target.groups.filter (fun gid => gid != g.id) }
      (.ok (), db.save_user target1, cache_delete c1 (make_key target.id))

/-! ### apps/users/api/views.py — UserViewSet request flows

The viewset fetches the target record, runs the service-layer checks, and
only then lets the serializer persist the change; when the service raises,
the request aborts with the store untouched. -/

/-- `UserUpdateSerializer.update` on the fields the claims concern: apply
`is_active` and `group_ids` when present and save; when `group_ids` is
present, additionally invalidate the target's permission-cache entry. -/
def serializer_apply_update (db : Db) (c : Cache) (target : User)
    (d : UpdateData) : User × Db × Cache :=
  let target1 := { target with
    is_active := d.is_active.getD target.is_active,
    groups := d.group_ids.getD target.groups }
  let c1 := match d.group_ids with
    | some _ => cache_delete c (make_key target.id)
    | none => c
  (target1, db.save_user target1, c1)

/-- `UserViewSet.update`: fetch the instance (404 on a miss), run
`UserService.update_user`, and on success let the serializer persist the
update. -/
def UserViewSet.update (db : Db) (c : Cache) (requester : User) (target_id : Nat)
    (validated_data : UpdateData) : Except ApiError User × Db × Cache :=
  match db.find_user target_id with
  | none => (.error .doesNotExist, db, c)
  | some target =>
    match UserService.update_user db c requester target validated_data with
    | (.error e, c1) => (.error e, db, c1)
    | (.ok d, c1) =>
      let r := serializer_apply_update db c1 target d
      (.ok r.fst, r.snd.fst, r.snd.snd)

/-- `UserViewSet.destroy`: fetch the instance (404 on a miss) and run
`UserService.delete_user`. -/
def UserViewSet.destroy (db : Db) (c : Cache) (now : Nat) (requester : User)
    (target_id : Nat) : Except ApiError Unit × Db × Cache :=
  match db.find_user target_id with
  | none => (.error .doesNotExist, db, c)
  | some target =>
    UserService.delete_user db c now requester target

/-- `UserViewSet.create`: run `UserService.create_user` and on success let the
serializer persist the new user row. -/
def UserViewSet.create (db : Db) (c : Cache) (requester : User)
    (new_user : User) : Except ApiError User × Db × Cache :=
  match UserService.create_user db c requester new_user with
  | (.error e, c1) => (.error e, db, c1)
  | (.ok u, c1) => (.ok u, { db with users := db.users ++ [u] }, c1)

/-! ### Helper lemmas -/

/-- Deleting a key from the cache makes any subsequent read of that key a
miss. -/
theorem cache_get_delete_self (c : Cache) (k : String) :
    cache_get (cache_delete c k) k = none := by
  have h : (cache_delete c k).find? (fun e => e.fst == k) = none := by
    rw [List.find?_eq_none]
    intro x hx
    have hmem := List.mem_filter.mp hx
    simpa using hmem.2
  simp [cache_get, h]

/-- A user returned by `authenticate` is active: the default backend filters
inactive users through `user_can_authenticate`. -/
theorem authenticate_is_active (db : Db) (username password : String) (u : User)
    (h : authenticate db username password = some u) : u.is_active = true := by
  unfold authenticate at h
  cases hf : db.users.find? (fun v => v.username == username) with
  | none => rw [hf] at h; cases h
  | some w =>
    simp only [hf] at h
    by_cases hc : (check_password password w.password && w.is_active) = true
    · rw [if_pos hc] at h
      cases h
      exact (Bool.and_eq_true _ _).mp hc |>.2
    · rw [if_neg hc] at h
      cases h

/-- The `require_permission` decorator passes when the codename is in the
acting user's cached permission set, leaving behind the cache produced by the
lookup. -/
theorem require_permission_check_ok (db : Db) (c : Cache) (su : User) (codename : Perm)
    (h : codename ∈ (get_user_permissions_cached db c (some su)).fst) :
    require_permission_check db c su codename =
      (.ok (), (get_user_permissions_cached db c (some su)).snd) := by
  have hc : (get_user_permissions_cached db c (some su)).fst.contains codename = true := by
    simp [List.elem_iff]; exact h
  unfold require_permission_check has_permission
  simp [hc, h]

/-- Finding after a pointwise update that preserves the searched key: if
`find?` hits `a` and the update function fixes every non-matching element and
keeps matching elements matching, then `find?` on the mapped list hits
`f a`. -/
theorem find?_map_update {α : Type} (l : List α) (p : α → Bool) (f : α → α)
    (hf : ∀ x, p x = true → p (f x) = true)
    (hg : ∀ x, p x = false → f x = x)
    (a : α) (h : l.find? p = some a) :
    (l.map f).find? p = some (f a) := by
  induction l with
  | nil => cases h
  | cons v tl ih =>
    rw [List.find?_cons] at h
    rw [List.map_cons, List.find?_cons]
    by_cases hv : p v = true
    · simp only [hv] at h
      cases h
      simp only [hf _ hv]
    · have hv2 : p v = false := Bool.eq_false_iff.mpr hv
      simp only [hv2] at h
      rw [hg _ hv2]
      simp only [hv2]
      exact ih h

/-! ### Concrete fixtures for the witnesses and counterexamples -/

/-- Fixture role: the administrator group the update guard looks up by
name. -/
def gAdmin : Group :=
  { id := 5, name := "Administradores",
    permissions := ["auth.view_user", "auth.change_user", "auth.delete_user",
                    "auth.add_user"] }

/-- Fixture role: a read-only group. -/
def gView : Group :=
  { id := 6, name := "Lectores", permissions := ["auth.view_user"] }

/-- Fixture user: an active administrator. -/
def alice : User :=
  { id := 1, username := "alice", password := make_password "secret1",
    is_active := true, is_superuser := false, groups := [5],
    user_permissions := [], last_login := none }

/-- Fixture user: an active reader with one direct grant. -/
def bob : User :=
  { id := 2, username := "bob", password := make_password "secret2",
    is_active := true, is_superuser := false, groups := [6],
    user_permissions := ["extra.perm"], last_login := none }

/-- Fixture user: a deactivated account with a known password. -/
def carlos : User :=
  { id := 3, username := "carlos", password := make_password "secret3",
    is_active := false, is_superuser := false, groups := [],
    user_permissions := [], last_login := none }

/-- Fixture identity store holding the three users, the two groups and one
profile per user. -/
def db0 : Db :=
  { users := [alice, bob, carlos],
    groups := [gAdmin, gView],
    profiles := [⟨1, none⟩, ⟨2, none⟩, ⟨3, none⟩],
    all_perms := ["auth.view_user", "auth.change_user", "auth.delete_user",
                  "auth.add_user", "extra.perm"] }

/-- Fixture token state: empty blacklist at time 50. -/
def st_pre : AuthState := { blacklist := [], now := 50 }

/-- Fixture refresh token: issued to user 1, token id 42, expiring at 200. -/
def rtok : Token := { user_id := 1, jti := 42, exp := 200 }

/-- Fixture token state after logging out `rtok` from `st_pre`. -/
def st_post : AuthState := (AuthService.logout st_pre (.signed rtok)).snd

/-! ### Claim theorems -/

/-- C10: resolving a user id with no corresponding principal in the identity
store via `get_or_compute` returns the empty permission set without raising
and without writing any cache entry for that id, so a subsequent resolution
recomputes from the store again (and again returns empty with the cache
untouched). -/
theorem C10_missing_user_resolves_empty_uncached (db : Db) (c : Cache) (uid : Nat)
    (hnouser : db.find_user uid = none)
    (hnocache : cache_get c (make_key uid) = none) :
    get_or_compute db c uid = ([], c) ∧
    get_or_compute db (get_or_compute db c uid).snd uid = ([], c) := by
  have h1 : get_or_compute db c uid = ([], c) := by
    unfold get_or_compute
    rw [hnocache, hnouser]
  exact ⟨h1, by rw [h1]; exact h1⟩

/-- C10 witness: user id 99 does not exist in the fixture store; resolving it
on an empty cache yields the empty set and leaves the cache empty, twice. -/
theorem C10_missing_user_witness :
    get_or_compute db0 [] 99 = ([], []) ∧
    get_or_compute db0 (get_or_compute db0 [] 99).snd 99 = ([], []) :=
  C10_missing_user_resolves_empty_uncached db0 [] 99 rfl rfl

/-- C3: rotation is enabled in the configuration
(`ROTATE_REFRESH_TOKENS = true`), yet refreshing with a valid, unexpired,
unrevoked refresh token succeeds with a response dict holding only the
`"access"` key (no newly issued refresh token), leaves the revocation set
unchanged, and the very same refresh token is accepted again by a second
refresh — the service ignores the rotation settings. -/
theorem C3_refresh_does_not_rotate :
    ROTATE_REFRESH_TOKENS = true
  ∧ AuthService.refresh_token st_pre (.signed rtok) =
      (.ok [("access", { user_id := 1, exp := 170 })], st_pre)
  ∧ List.lookup "refresh"
      [(("access" : String), ({ user_id := 1, exp := 170 } : AccessToken))] = none
  ∧ (AuthService.refresh_token st_pre (.signed rtok)).snd.blacklist = st_pre.blacklist
  ∧ (AuthService.refresh_token
        (AuthService.refresh_token st_pre (.signed rtok)).snd (.signed rtok)).fst =
      .ok [("access", { user_id := 1, exp := 170 })] :=
  ⟨rfl, rfl, rfl, rfl, rfl⟩

/-- C6: a login that fails because the username matches no user and a login
that fails because the password does not verify produce the one identical
outcome `AuthenticationFailed("Credenciales inválidas")` with the store
untouched — comparing the two runs yields no distinguishing signal. -/
theorem C6_login_error_indistinguishable (db : Db) (st : AuthState) (j1 j2 : Nat)
    (un1 pw1 un2 pw2 : String)
    (h1 : db.users.find? (fun u => u.username == un1) = none)
    (u2 : User) (h2 : db.users.find? (fun u => u.username == un2) = some u2)
    (h2p : check_password pw2 u2.password = false) :
    AuthService.login db st j1 un1 pw1 =
      (.error (.authenticationFailed "Credenciales inválidas"), db)
  ∧ AuthService.login db st j2 un2 pw2 =
      (.error (.authenticationFailed "Credenciales inválidas"), db)
  ∧ AuthService.login db st j1 un1 pw1 = AuthService.login db st j2 un2 pw2 := by
  have ha1 : authenticate db un1 pw1 = none := by
    unfold authenticate; rw [h1]
  have ha2 : authenticate db un2 pw2 = none := by
    unfold authenticate; simp [h2, h2p]
  have e1 : AuthService.login db st j1 un1 pw1 =
      (.error (.authenticationFailed "Credenciales inválidas"), db) := by
    unfold AuthService.login; rw [ha1]
  have e2 : AuthService.login db st j2 un2 pw2 =
      (.error (.authenticationFailed "Credenciales inválidas"), db) := by
    unfold AuthService.login; rw [ha2]
  exact ⟨e1, e2, by rw [e1, e2]⟩

/-- C6 witness: in the fixture store, an unknown username and a wrong password
for `alice` produce the identical failure. -/
theorem C6_login_error_witness :
    AuthService.login db0 st_pre 9 "nobody" "whatever" =
      (.error (.authenticationFailed "Credenciales inválidas"), db0)
  ∧ AuthService.login db0 st_pre 9 "alice" "wrong" =
      (.error (.authenticationFailed "Credenciales inválidas"), db0)
  ∧ AuthService.login db0 st_pre 9 "nobody" "whatever" =
      AuthService.login db0 st_pre 9 "alice" "wrong" :=
  C6_login_error_indistinguishable db0 st_pre 9 9 "nobody" "whatever" "alice" "wrong"
    rfl alice rfl rfl

/-- C7: a deactivated principal presenting the correct password receives the
generic `AuthenticationFailed("Credenciales inválidas")` — not the distinct
inactive-account outcome the claim requires — because the default
authentication backend filters inactive users before the dedicated
`Usuario inactivo` branch; that branch is unreachable for every input. -/
theorem C7_inactive_login_yields_generic_error (db : Db) (st : AuthState) (j : Nat)
    (un pw : String) (u : User)
    (hfind : db.users.find? (fun v => v.username == un) = some u)
    (hpw : check_password pw u.password = true)
    (hinactive : u.is_active = false) :
    AuthService.login db st j un pw =
      (.error (.authenticationFailed "Credenciales inválidas"), db)
  ∧ ∀ (db2 : Db) (st2 : AuthState) (j2 : Nat) (un2 pw2 : String),
      (AuthService.login db2 st2 j2 un2 pw2).fst ≠
        .error (.authenticationFailed "Usuario inactivo") := by
  constructor
  · have ha : authenticate db un pw = none := by
      unfold authenticate; simp [hfind, hinactive]
    unfold AuthService.login; rw [ha]
  · intro db2 st2 j2 un2 pw2
    unfold AuthService.login
    cases ha : authenticate db2 un2 pw2 with
    | none =>
      simp only [ha]
      intro hcontra
      injection hcontra with h1
      injection h1 with h2
      exact absurd h2 (by decide)
    | some v =>
      have hv := authenticate_is_active db2 un2 pw2 v ha
      simp [ha, hv]

/-- C7 witness: `carlos` is deactivated and presents the correct password,
yet the result is the generic invalid-credentials failure. -/
theorem C7_inactive_login_witness :
    AuthService.login db0 st_pre 9 "carlos" "secret3" =
      (.error (.authenticationFailed "Credenciales inválidas"), db0) :=
  (C7_inactive_login_yields_generic_error db0 st_pre 9 "carlos" "secret3" carlos
    rfl rfl rfl).1

/-- C5 (amended): after a successful logout of a refresh token, every later
refresh presenting that token fails — deterministically, with the service
state untouched, so repeated attempts fail identically — but the failure is
the same generic `ValidationError` exception kind the service produces for
malformed or expired tokens; only the detail message (`Token is blacklisted`
while the token is unexpired) differs.  There is no distinct revoked error
kind. -/
theorem C5_revoked_refresh_always_fails (st : AuthState) (t : Token)
    (hexp : st.now < t.exp) (hnb : st.blacklist.contains t.jti = false) :
    (AuthService.logout st (.signed t)).fst = .ok ()
  ∧ (AuthService.logout st (.signed t)).snd.blacklist.contains t.jti = true
  ∧ ∀ st2 : AuthState, st2.blacklist.contains t.jti = true →
      AuthService.refresh_token st2 (.signed t) =
        (.error (.validationError ("Token inválido: " ++
          (if t.exp ≤ st2.now then "Token is invalid or expired"
           else "Token is blacklisted"))), st2)
    ∧ errorKind (AuthService.refresh_token st2 (.signed t)).fst =
        errorKind (AuthService.refresh_token st2 .malformed).fst := by
  have hnotle : ¬ t.exp ≤ st.now := Nat.not_le.mpr hexp
  have hnbm : t.jti ∉ st.blacklist := by simpa using hnb
  have hrti : refresh_token_init st (.signed t) = .ok t := by
    unfold refresh_token_init
    simp [hnotle, hnbm]
  refine ⟨?_, ?_, ?_⟩
  · unfold AuthService.logout; rw [hrti]
  · unfold AuthService.logout; rw [hrti]
    simp [List.contains_cons]
  · intro st2 hb2
    by_cases hle : t.exp ≤ st2.now
    · have hr2 : refresh_token_init st2 (.signed t) = .error "Token is invalid or expired" := by
        unfold refresh_token_init
        simp [hle]
      constructor
      · unfold AuthService.refresh_token
        rw [hr2, if_pos hle]
      · unfold AuthService.refresh_token
        rw [hr2]
        rfl
    · have hb2m : t.jti ∈ st2.blacklist := by simpa using hb2
      have hr2 : refresh_token_init st2 (.signed t) = .error "Token is blacklisted" := by
        unfold refresh_token_init
        simp [hle, hb2m]
      constructor
      · unfold AuthService.refresh_token
        rw [hr2, if_neg hle]
      · unfold AuthService.refresh_token
        rw [hr2]
        rfl

/-- C5 witness: logging out the fixture token and refreshing with it twice in
the resulting state fails both times with the blacklisted detail. -/
theorem C5_revoked_refresh_witness :
    (AuthService.logout st_pre (.signed rtok)).fst = .ok ()
  ∧ AuthService.refresh_token st_post (.signed rtok) =
      (.error (.validationError "Token inválido: Token is blacklisted"), st_post) := by
  refine ⟨(C5_revoked_refresh_always_fails st_pre rtok (by decide) rfl).1, ?_⟩
  have h := ((C5_revoked_refresh_always_fails st_pre rtok (by decide) rfl).2.2
    st_post rfl).1
  simpa using h

/-- C5 counterexample: for a concrete revoked token, the refresh failure is of
the same exception kind (`ValidationError`) the service raises for a malformed
or expired token — refuting the claim that revocation surfaces as a distinct
error kind. -/
theorem C5_counterexample_same_error_kind :
    (AuthService.logout st_pre (.signed rtok)).fst = .ok ()
  ∧ (AuthService.refresh_token st_post (.signed rtok)).fst =
      .error (.validationError "Token inválido: Token is blacklisted")
  ∧ errorKind (AuthService.refresh_token st_post (.signed rtok)).fst =
      some "ValidationError"
  ∧ errorKind (AuthService.refresh_token st_post .malformed).fst =
      some "ValidationError"
  ∧ errorKind (AuthService.refresh_token st_post (.signed rtok)).fst =
      errorKind (AuthService.refresh_token st_post .malformed).fst :=
  ⟨rfl, rfl, rfl, rfl, rfl⟩

/-- C1: the authorization gate denies a null (unauthenticated) principal;
allows a superuser unconditionally; allows a non-superuser when the view
declares no required-permission entry for the current action; allows when the
declared entry normalises to the empty list; and otherwise allows exactly when
every permission of the declared entry is a member of the principal's resolved
permission set. -/
theorem C1_authorization_gate (db : Db) (c : Cache) (view : View) (u : User)
    (act : String) (hsup : u.is_superuser = false) (hact : view.action = some act) :
    (HasPermission.has_permission db c none view).fst = false
  ∧ (∀ (v2 : View) (u2 : User), u2.is_superuser = true →
      (HasPermission.has_permission db c (some u2) v2).fst = true)
  ∧ (view.required_permissions.find? (fun e => e.fst == act) = none →
      (HasPermission.has_permission db c (some u) view).fst = true)
  ∧ (∀ tag : String, view.required_permissions.find? (fun e => e.fst == act) =
        some (tag, .list []) →
      (HasPermission.has_permission db c (some u) view).fst = true)
  ∧ (∀ entry, view.required_permissions.find? (fun e => e.fst == act) = some entry →
      ((HasPermission.has_permission db c (some u) view).fst = true ↔
        ∀ p ∈ entry.snd.toList, p ∈ (get_user_permissions_cached db c (some u)).fst)) := by
  refine ⟨rfl, ?_, ?_, ?_, ?_⟩
  · intro v2 u2 h
    simp [HasPermission.has_permission, h]
  · intro hnone
    simp [HasPermission.has_permission, hsup, hact, hnone]
  · intro tag hfind
    simp [HasPermission.has_permission, hsup, hact, hfind, ActionPerms.toList]
  · intro entry hfind
    simp [HasPermission.has_permission, hsup, hact, hfind, List.all_eq_true,
      List.elem_iff]

/-- C1 witness: on the fixture view requiring `auth.delete_user` for the
destroy action, the gate denies a null principal, allows a superuser, and for
the reader `bob` decides by membership of the required permission in the
resolved set. -/
theorem C1_authorization_gate_witness :
    (HasPermission.has_permission db0 []
        none
        { required_permissions := [("destroy", .list ["auth.delete_user"])],
          action := some "destroy" }).fst = false
  ∧ (HasPermission.has_permission db0 []
        (some { bob with is_superuser := true })
        { required_permissions := [("destroy", .list ["auth.delete_user"])],
          action := some "destroy" }).fst = true
  ∧ ((HasPermission.has_permission db0 [] (some bob)
        { required_permissions := [("destroy", .list ["auth.delete_user"])],
          action := some "destroy" }).fst = true ↔
      ∀ p ∈ (ActionPerms.list ["auth.delete_user"]).toList,
        p ∈ (get_user_permissions_cached db0 [] (some bob)).fst) := by
  refine ⟨(C1_authorization_gate db0 []
      { required_permissions := [("destroy", .list ["auth.delete_user"])],
        action := some "destroy" } bob "destroy" rfl rfl).1, ?_, ?_⟩
  · exact (C1_authorization_gate db0 []
      { required_permissions := [("destroy", .list ["auth.delete_user"])],
        action := some "destroy" } bob "destroy" rfl rfl).2.1 _ _ rfl
  · exact (C1_authorization_gate db0 []
      { required_permissions := [("destroy", .list ["auth.delete_user"])],
        action := some "destroy" } bob "destroy" rfl rfl).2.2.2.2
      ("destroy", .list ["auth.delete_user"]) rfl

/-- C2: a successful role grant or revocation for a target principal deletes
the target's permission-cache entry before returning, so an immediately
following resolution recomputes the permission set from the post-mutation
store — for an active non-superuser target, the union of direct grants and
the grants of the post-mutation role memberships — never a pre-mutation
cached value. -/
theorem C2_role_mutation_cache_coherent (db : Db) (c : Cache)
    (self_user target : User) (gid : Nat) (db2 : Db) (c2 : Cache)
    (hmut : UserPermissionService.assign_role db c self_user target gid =
              (.ok (), db2, c2)
          ∨ UserPermissionService.remove_role db c self_user target gid =
              (.ok (), db2, c2)) :
    cache_get c2 (make_key target.id) = none
  ∧ ∀ u2, db2.find_user target.id = some u2 →
      (get_or_compute db2 c2 target.id).fst = get_all_permissions db2 u2
    ∧ (u2.is_active = true → u2.is_superuser = false →
        ∀ p : Perm, p ∈ (get_or_compute db2 c2 target.id).fst ↔
          (p ∈ u2.user_permissions ∨
            ∃ g ∈ db2.groups, g.id ∈ u2.groups ∧ p ∈ g.permissions)) := by
  have hc2 : ∃ c1, c2 = cache_delete c1 (make_key target.id) := by
    rcases hmut with h | h
    · unfold UserPermissionService.assign_role at h
      split at h
      · simp at h
      · split at h
        · simp at h
        · simp only [Prod.mk.injEq] at h
          exact ⟨_, h.2.2.symm⟩
    · unfold UserPermissionService.remove_role at h
      split at h
      · simp at h
      · split at h
        · simp at h
        · simp only [Prod.mk.injEq] at h
          exact ⟨_, h.2.2.symm⟩
  obtain ⟨c1, rfl⟩ := hc2
  have hmiss := cache_get_delete_self c1 (make_key target.id)
  refine ⟨hmiss, ?_⟩
  intro u2 hu2
  have hres : (get_or_compute db2 (cache_delete c1 (make_key target.id)) target.id).fst
      = get_all_permissions db2 u2 := by
    unfold get_or_compute
    rw [hmiss, hu2]
  refine ⟨hres, ?_⟩
  intro hact hsup p
  rw [hres]
  unfold get_all_permissions
  simp only [hact, hsup, Bool.not_true, if_false]
  simp [List.mem_append, List.mem_flatMap, List.mem_filter, List.elem_iff]
  tauto

/-- C2 witness: `alice` grants the administrator role to `bob`, whose cache
entry holds a stale value; the call succeeds and the stale entry is gone from
the returned cache. -/
theorem C2_role_mutation_witness :
    (UserPermissionService.assign_role db0
        [(make_key bob.id, ["stale.perm"])] alice bob 5).fst = .ok ()
  ∧ cache_get (UserPermissionService.assign_role db0
        [(make_key bob.id, ["stale.perm"])] alice bob 5).snd.snd
      (make_key bob.id) = none := by
  constructor
  · rfl
  · exact (C2_role_mutation_cache_coherent db0 [(make_key bob.id, ["stale.perm"])]
      alice bob 5 _ _ (Or.inl rfl)).1

/-- C9: with an authorized requester, account creation fails with the quota
`ValidationError` and adds no principal whenever the count of active
principals is at or above the ceiling of 10, and passes the quota check and
appends the new principal when the count is below the ceiling. -/
theorem C9_quota_enforced (db : Db) (c : Cache) (requester new_user : User)
    (hperm : "auth.add_user" ∈ (get_user_permissions_cached db c (some requester)).fst) :
    (10 ≤ (db.users.filter (fun u => u.is_active)).length →
        (UserViewSet.create db c requester new_user).fst =
          .error (.validationError
            "Límite de usuarios alcanzado (10). Contacta soporte para ampliar tu plan.")
      ∧ (UserViewSet.create db c requester new_user).snd.fst = db)
  ∧ ((db.users.filter (fun u => u.is_active)).length < 10 →
        (UserViewSet.create db c requester new_user).fst = .ok new_user
      ∧ (UserViewSet.create db c requester new_user).snd.fst.users =
          db.users ++ [new_user]) := by
  have hreq := require_permission_check_ok db c requester "auth.add_user" hperm
  constructor
  · intro hge
    have hsvc : UserService.create_user db c requester new_user =
        (.error (.validationError
          "Límite de usuarios alcanzado (10). Contacta soporte para ampliar tu plan."),
         (get_user_permissions_cached db c (some requester)).snd) := by
      unfold UserService.create_user
      simp only [hreq]
      rw [if_pos hge]
      rfl
    unfold UserViewSet.create
    simp [hsvc]
  · intro hlt
    have hsvc : UserService.create_user db c requester new_user =
        (.ok new_user, (get_user_permissions_cached db c (some requester)).snd) := by
      unfold UserService.create_user
      simp only [hreq]
      rw [if_neg (Nat.not_le.mpr hlt)]
    unfold UserViewSet.create
    simp [hsvc]

/-- Fixture user for creation witnesses. -/
def dora : User :=
  { id := 7, username := "dora", password := make_password "secret7",
    is_active := true, is_superuser := false, groups := [],
    user_permissions := [], last_login := none }

/-- Fixture minimal active user records to fill the quota. -/
def mkU (n : Nat) : User :=
  { id := n, username := "u" ++ toString n, password := "",
    is_active := true, is_superuser := false, groups := [],
    user_permissions := [], last_login := none }

/-- Fixture store with exactly 10 active principals (the quota ceiling). -/
def dbFull : Db :=
  { users := alice :: (List.range 9).map (fun n => mkU (n + 100)),
    groups := [gAdmin],
    profiles := [],
    all_perms := gAdmin.permissions }

/-- C9 witness: in the 3-user fixture store creation by `alice` succeeds and
appends the row; in the 10-active-user store it fails with the quota error
and leaves the store unchanged. -/
theorem C9_quota_witness :
    ((UserViewSet.create db0 [] alice dora).fst = .ok dora
      ∧ (UserViewSet.create db0 [] alice dora).snd.fst.users = db0.users ++ [dora])
  ∧ ((UserViewSet.create dbFull [] alice dora).fst =
        .error (.validationError
          "Límite de usuarios alcanzado (10). Contacta soporte para ampliar tu plan.")
      ∧ (UserViewSet.create dbFull [] alice dora).snd.fst = dbFull) :=
  ⟨(C9_quota_enforced db0 [] alice dora (by decide)).2 (by decide),
   (C9_quota_enforced dbFull [] alice dora (by decide)).1 (by decide)⟩

/-- Saving a user with the same primary key as a row found in the store makes
the subsequent lookup return the saved record. -/
theorem find_user_save_user (db : Db) (target u : User) (hid : u.id = target.id)
    (hfind : db.find_user target.id = some target) :
    (db.save_user u).find_user target.id = some u := by
  unfold Db.find_user Db.save_user at *
  have h := find?_map_update db.users (fun v => v.id == target.id)
      (fun v => if v.id == u.id then u else v)
      (fun x hx => by
        have hxid : x.id = target.id := by simpa using hx
        simp [hxid, hid])
      (fun x hx => by
        have hxid : ¬ x.id = target.id := by simpa using hx
        simp [hid, hxid])
      target hfind
  rw [h]
  simp [hid]

/-- An element returned by `find?` satisfies the search predicate. -/
theorem find?_pred {α : Type} (l : List α) (p : α → Bool) (a : α)
    (h : l.find? p = some a) : p a = true := by
  induction l with
  | nil => cases h
  | cons v tl ih =>
    rw [List.find?_cons] at h
    by_cases hv : p v = true
    · simp only [hv] at h
      cases h
      exact hv
    · have hv2 : p v = false := Bool.eq_false_iff.mpr hv
      simp only [hv2] at h
      exact ih h

/-- Pointwise soft-delete marking of the profile with the searched user id
turns the lookup result into the marked profile. -/
theorem find_profile_mark (l : List Profile) (tid now : Nat) (prof : Profile)
    (h : l.find? (fun p => p.user_id == tid) = some prof) :
    (l.map (fun p =>
        if p.user_id == tid then { p with deleted_at := some now } else p)).find?
      (fun p => p.user_id == tid) = some { prof with deleted_at := some now } := by
  have hmap := find?_map_update l (fun p => p.user_id == tid)
      (fun p => if p.user_id == tid then { p with deleted_at := some now } else p)
      (fun x hx => by simp [hx])
      (fun x hx => by simp [hx])
      prof h
  rw [hmap]
  have hp : (prof.user_id == tid) = true := find?_pred l _ prof h
  simp [hp]

/-- C4: a requester acting on its own record — regardless of the superuser
flag, which none of the guards consult — cannot deactivate itself, cannot
drop the administrator role it currently holds, and cannot delete itself;
each guard raises `PermissionDenied` with the store unchanged. -/
theorem C4_self_protection (db : Db) (c : Cache) (u : User) (d : UpdateData)
    (ag : Group) (now : Nat)
    (hu : db.find_user u.id = some u)
    (hch : "auth.change_user" ∈ (get_user_permissions_cached db c (some u)).fst)
    (hdel : "auth.delete_user" ∈ (get_user_permissions_cached db c (some u)).fst) :
    (d.is_active = some false →
        ((UserViewSet.update db c u u.id d).fst =
          .error (.permissionDenied "No puedes desactivar tu propia cuenta")
        ∧ (UserViewSet.update db c u u.id d).snd.fst = db))
  ∧ (d.is_active ≠ some false →
      ∀ gids : List Nat, d.group_ids = some gids →
        db.groups.find? (fun g => g.name == "Administradores") = some ag →
        ag.id ∈ u.groups → ag.id ∉ gids →
        ((UserViewSet.update db c u u.id d).fst =
          .error (.permissionDenied "No puedes remover tu propio rol de Administrador")
        ∧ (UserViewSet.update db c u u.id d).snd.fst = db))
  ∧ ((UserViewSet.destroy db c now u u.id).fst =
        .error (.permissionDenied "No puedes eliminar tu propia cuenta")
    ∧ (UserViewSet.destroy db c now u u.id).snd.fst = db) := by
  have hreqc := require_permission_check_ok db c u "auth.change_user" hch
  have hreqd := require_permission_check_ok db c u "auth.delete_user" hdel
  refine ⟨?_, ?_, ?_⟩
  · intro hdact
    have hsvc : UserService.update_user db c u u d =
        (.error (.permissionDenied "No puedes desactivar tu propia cuenta"),
         (get_user_permissions_cached db c (some u)).snd) := by
      unfold UserService.update_user
      simp [hreqc, hdact]
    unfold UserViewSet.update
    simp [hu, hsvc]
  · intro hnd gids hg hag hmem hnotmem
    have hsvc : UserService.update_user db c u u d =
        (.error (.permissionDenied "No puedes remover tu propio rol de Administrador"),
         (get_user_permissions_cached db c (some u)).snd) := by
      unfold UserService.update_user
      simp only [hreqc]
      rw [if_neg (by simpa using hnd)]
      simp [hg, hag]
      exact ⟨hmem, hnotmem⟩
    unfold UserViewSet.update
    simp [hu, hsvc]
  · have hsvc : UserService.delete_user db c now u u =
        (.error (.permissionDenied "No puedes eliminar tu propia cuenta"), db,
         (get_user_permissions_cached db c (some u)).snd) := by
      unfold UserService.delete_user
      simp [hreqd]
    unfold UserViewSet.destroy
    simp [hu, hsvc]

/-- C4 witness: the administrator `alice` can neither deactivate her account,
nor drop her `Administradores` role, nor delete her account; each attempt
fails with the dedicated message and the fixture store is unchanged. -/
theorem C4_self_protection_witness :
    ((UserViewSet.update db0 [] alice alice.id ⟨some false, none⟩).fst =
        .error (.permissionDenied "No puedes desactivar tu propia cuenta")
      ∧ (UserViewSet.update db0 [] alice alice.id ⟨some false, none⟩).snd.fst = db0)
  ∧ ((UserViewSet.update db0 [] alice alice.id ⟨none, some []⟩).fst =
        .error (.permissionDenied "No puedes remover tu propio rol de Administrador")
      ∧ (UserViewSet.update db0 [] alice alice.id ⟨none, some []⟩).snd.fst = db0)
  ∧ ((UserViewSet.destroy db0 [] 777 alice alice.id).fst =
        .error (.permissionDenied "No puedes eliminar tu propia cuenta")
      ∧ (UserViewSet.destroy db0 [] 777 alice alice.id).snd.fst = db0) :=
  ⟨(C4_self_protection db0 [] alice ⟨some false, none⟩ gAdmin 777 rfl
      (by decide) (by decide)).1 rfl,
   (C4_self_protection db0 [] alice ⟨none, some []⟩ gAdmin 777 rfl
      (by decide) (by decide)).2.1 (by decide) [] rfl rfl (by decide) (by decide),
   (C4_self_protection db0 [] alice ⟨some false, none⟩ gAdmin 777 rfl
      (by decide) (by decide)).2.2⟩

/-- C8: a successful delete by a distinct authorized requester soft-deletes
the target: afterwards the target row is still retrievable by id with its
active flag false, the target's profile carries the deletion timestamp, the
row count is unchanged (no hard removal), and the target's permission-cache
entry is invalidated. -/
theorem C8_soft_delete_round_trip (db : Db) (c : Cache) (now : Nat)
    (requester target : User) (prof : Profile)
    (hfind : db.find_user target.id = some target)
    (hprof : db.profiles.find? (fun p => p.user_id == target.id) = some prof)
    (hperm : "auth.delete_user" ∈ (get_user_permissions_cached db c (some requester)).fst)
    (hne : target.id ≠ requester.id) :
    (UserViewSet.destroy db c now requester target.id).fst = .ok ()
  ∧ (UserViewSet.destroy db c now requester target.id).snd.fst.find_user target.id =
      some { target with is_active := false }
  ∧ (UserViewSet.destroy db c now requester target.id).snd.fst.profiles.find?
      (fun p => p.user_id == target.id) = some { prof with deleted_at := some now }
  ∧ (UserViewSet.destroy db c now requester target.id).snd.fst.users.length =
      db.users.length
  ∧ cache_get (UserViewSet.destroy db c now requester target.id).snd.snd
      (make_key target.id) = none := by
  have hreqd := require_permission_check_ok db c requester "auth.delete_user" hperm
  have hbe : (target.id == requester.id) = false := by simpa using hne
  have hd : UserViewSet.destroy db c now requester target.id =
      (.ok (),
       { db.save_user { target with is_active := false } with
         profiles := (db.save_user { target with is_active := false }).profiles.map
           (fun p =>
             if p.user_id == target.id then { p with deleted_at := some now } else p) },
       cache_delete (get_user_permissions_cached db c (some requester)).snd
         (make_key target.id)) := by
    unfold UserViewSet.destroy UserService.delete_user
    simp [hfind, hreqd, hbe]
  refine ⟨by rw [hd], ?_, ?_, ?_, by rw [hd]; exact cache_get_delete_self _ _⟩
  · rw [hd]
    exact find_user_save_user db target { target with is_active := false } rfl hfind
  · rw [hd]
    exact find_profile_mark db.profiles target.id now prof hprof
  · rw [hd]
    simp [Db.save_user]

/-- C8 witness: `alice` deletes `bob` in the fixture store: the call
succeeds, `bob` remains retrievable but inactive, his profile is stamped, the
row count is preserved and his cache entry is gone. -/
theorem C8_soft_delete_witness :
    (UserViewSet.destroy db0 [] 777 alice bob.id).fst = .ok ()
  ∧ (UserViewSet.destroy db0 [] 777 alice bob.id).snd.fst.find_user bob.id =
      some { bob with is_active := false }
  ∧ (UserViewSet.destroy db0 [] 777 alice bob.id).snd.fst.profiles.find?
      (fun p => p.user_id == bob.id) = some ⟨2, some 777⟩
  ∧ (UserViewSet.destroy db0 [] 777 alice bob.id).snd.fst.users.length =
      db0.users.length
  ∧ cache_get (UserViewSet.destroy db0 [] 777 alice bob.id).snd.snd
      (make_key bob.id) = none :=
  C8_soft_delete_round_trip db0 [] 777 alice bob ⟨2, none⟩ rfl rfl
    (by decide) (by decide)

end Nexus
